import Mathlib

/-!
Shallow embedding of the `color-generation` repository (files
`color_generation.py` and `colors.py`) for checking the natural-language
specification against the code.

Modelling conventions:
* Python strings are modelled as `List Char` (abbreviated `Str`); string
  literals are injected with `chars`.
* Python floats are modelled as exact rationals `ℚ`; `math.sin`,
  `math.log1p` and `math.pi` are transcendental and are abstracted as a
  parameter record `RealFns` threaded through the color algebra, so the
  code structure is preserved while only the rational control flow is
  fixed.  Python float `%` is modelled exactly as `a - b * ⌊a / b⌋`.
* Fallible Python code (raised exceptions) is modelled with
  `Except String`; the error strings keep the Python exception kind
  (`ValueError: ...`, `KeyError: ...`, ...) with slightly abridged text.
* Python `dict`s are modelled as association lists in insertion order,
  with `insertPy` mirroring `d[k] = v` (replace in place, else append),
  matching CPython's order-preserving dict semantics.
-/

attribute [local semireducible] Rat.add Rat.mul Rat.sub Rat.inv Rat.ofScientific

abbrev Str := List Char

def chars (s : String) : Str := s.data

/-- Python `str.lstrip(set)`: drop leading characters that are in `set`
(a character set, NOT a prefix — this is the source of several bugs in
the repository, e.g. `value.lstrip("link::")`). -/
def lstripSet (set : Str) (cs : Str) : Str :=
  cs.dropWhile (fun c => set.contains c)

def isPySpace (c : Char) : Bool :=
  c = ' ' || c = '\t' || c = '\n' || c = '\r' || c = '\x0b' || c = '\x0c'

/-- Python `str.strip()` (no argument): drop whitespace on both ends. -/
def pyStrip (cs : Str) : Str :=
  ((cs.dropWhile isPySpace).reverse.dropWhile isPySpace).reverse

/-- `p` occurs at the start of `cs`. -/
def startsWithS (p cs : Str) : Bool := p.isPrefixOf cs

/-- Split at the first occurrence of the (nonempty) substring `sep`:
Python `s.split(sep, 1)` when it succeeds. -/
def splitOnceSub (sep : Str) : Str → Option (Str × Str)
  | [] => if startsWithS sep [] then some ([], []) else none
  | c :: t =>
    if startsWithS sep (c :: t) then some ([], (c :: t).drop sep.length)
    else
      match splitOnceSub sep t with
      | none => none
      | some (a, b) => some (c :: a, b)

def containsSub (sep cs : Str) : Bool := (splitOnceSub sep cs).isSome

def splitSubGo (sep : Str) : Nat → Str → List Str
  | 0, cs => [cs]
  | fuel + 1, cs =>
    match splitOnceSub sep cs with
    | none => [cs]
    | some (a, b) => a :: splitSubGo sep fuel b

/-- Python `s.split(sep)` for a nonempty separator substring. -/
def splitSub (sep cs : Str) : List Str := splitSubGo sep (cs.length + 1) cs

/-- Python `s.split(c)` for a single-character separator. -/
def splitOnChar (sep : Char) : Str → List Str
  | [] => [[]]
  | c :: t =>
    if c = sep then [] :: splitOnChar sep t
    else
      match splitOnChar sep t with
      | [] => [[c]]
      | h :: r => (c :: h) :: r

/-- Python `s.split(c, 1)` when `c` occurs (first occurrence). -/
def splitOnceChar (sep : Char) : Str → Option (Str × Str)
  | [] => none
  | c :: t =>
    if c = sep then some ([], t)
    else
      match splitOnceChar sep t with
      | none => none
      | some (a, b) => some (c :: a, b)

/-- Replace every occurrence of substring `sep` by `repl`
(Python `s.replace(sep, repl)` for nonempty `sep`). -/
def replaceAllGo (sep repl : Str) : Nat → Str → Str
  | 0, cs => cs
  | fuel + 1, cs =>
    match splitOnceSub sep cs with
    | none => cs
    | some (a, b) => a ++ repl ++ replaceAllGo sep repl fuel b

def replaceAllSub (sep repl cs : Str) : Str :=
  replaceAllGo sep repl (cs.length + 1) cs

/-- Replace the first occurrence of substring `sep` by `repl`. -/
def replaceOnceSub (sep repl cs : Str) : Str :=
  match splitOnceSub sep cs with
  | none => cs
  | some (a, b) => a ++ repl ++ b

/-- Association-list lookup, Python `d[k]` / `d.get(k)`. -/
def alookup {α : Type} (k : Str) : List (Str × α) → Option α
  | [] => none
  | (k', v) :: t => if k' = k then some v else alookup k t

/-- Python `d[k] = v` on an insertion-ordered dict: replace the value in
place if the key exists, else append at the end. -/
def insertPy {α : Type} (k : Str) (v : α) : List (Str × α) → List (Str × α)
  | [] => [(k, v)]
  | (k', v') :: t => if k' = k then (k, v) :: t else (k', v') :: insertPy k v t

def digitVal (c : Char) : Nat := c.toNat - '0'.toNat

/-- Value of a run of decimal digits. -/
def parseNat (cs : Str) : Nat := cs.foldl (fun acc c => 10 * acc + digitVal c) 0

def isHexDigitC (c : Char) : Bool :=
  c.isDigit || ('a' ≤ c && c ≤ 'f') || ('A' ≤ c && c ≤ 'F')

def hexDigitVal (c : Char) : Nat :=
  if c.isDigit then c.toNat - '0'.toNat
  else if 'a' ≤ c && c ≤ 'f' then c.toNat - 'a'.toNat + 10
  else c.toNat - 'A'.toNat + 10

/-- Python `int(s, 16)` restricted to plain hex-digit strings; anything
else (including the empty string) raises `ValueError`. -/
def intBase16 (cs : Str) : Except String Nat :=
  if cs.isEmpty then .error "ValueError: invalid literal for int with base 16"
  else if cs.all isHexDigitC then
    .ok (cs.foldl (fun acc c => 16 * acc + hexDigitVal c) 0)
  else .error "ValueError: invalid literal for int with base 16"

/-- Python float `%` on exact rationals: `a - b * floor(a / b)`
(the result has the sign of the divisor). -/
def pymod (a b : ℚ) : ℚ := a - b * ⌊a / b⌋

/-- Python `round` on an exact rational: round half to even. -/
def pyRound (q : ℚ) : ℤ :=
  let f : ℤ := ⌊q⌋
  let r := q - f
  if r < 1 / 2 then f
  else if 1 / 2 < r then f + 1
  else if f % 2 = 0 then f else f + 1

def intToStr (i : ℤ) : Str :=
  match i with
  | .ofNat n => Nat.toDigits 10 n
  | .negSucc n => '-' :: Nat.toDigits 10 (n + 1)

/-- The transcendental real functions used by `color_generation.py`
(`math.sin`, `math.log1p`, `math.pi`), abstracted as parameters. -/
structure RealFns where
  sin : ℚ → ℚ
  log1p : ℚ → ℚ
  pi : ℚ

/-- A fixed interpretation used for concrete runs whose control flow never
reaches the transcendental branches. -/
def R0 : RealFns := ⟨fun _ => 0, fun _ => 0, 0⟩

/-! ## colors.py -/

/-- The color-name table of `colors.py`. -/
def color_names : List (Str × Str) := [
  (chars "white", chars "#ffffff"),
  (chars "black", chars "#000000"),
  (chars "red", chars "#ff0000"),
  (chars "green", chars "#008000"),
  (chars "blue", chars "#0000ff"),
  (chars "yellow", chars "#ffff00"),
  (chars "cyan", chars "#00ffff"),
  (chars "magenta", chars "#ff00ff"),
  (chars "silver", chars "#c0c0c0"),
  (chars "gray", chars "#808080"),
  (chars "maroon", chars "#800000"),
  (chars "olive", chars "#808000"),
  (chars "purple", chars "#800080"),
  (chars "teal", chars "#008080"),
  (chars "navy", chars "#000080"),
  (chars "orange", chars "#ffa500"),
  (chars "pink", chars "#ffc0cb"),
  (chars "brown", chars "#a52a2a"),
  (chars "gold", chars "#ffd700"),
  (chars "lime", chars "#00ff00"),
  (chars "indigo", chars "#4b0082"),
  (chars "violet", chars "#ee82ee"),
  (chars "khaki", chars "#f0e68c"),
  (chars "coral", chars "#ff7f50"),
  (chars "turquoise", chars "#40e0d0"),
  (chars "salmon", chars "#fa8072"),
  (chars "chocolate", chars "#d2691e"),
  (chars "plum", chars "#dda0dd"),
  (chars "orchid", chars "#da70d6"),
  (chars "tomato", chars "#ff6347"),
  (chars "tan", chars "#d2b48c"),
  (chars "lavender", chars "#e6e6fa"),
  (chars "beige", chars "#f5f5dc"),
  (chars "mistyrose", chars "#ffe4e1"),
  (chars "aquamarine", chars "#7fffd4"),
  (chars "snow", chars "#fffafa"),
  (chars "thistle", chars "#d8bfd8"),
  (chars "peru", chars "#cd853f"),
  (chars "seagreen", chars "#2e8b57"),
  (chars "steelblue", chars "#4682b4"),
  (chars "skyblue", chars "#87ceeb")]

/-- Python `str.lower` (ASCII letters; the table keys are ASCII). -/
def pyLower (cs : Str) : Str :=
  cs.map (fun c => if 'A' ≤ c && c ≤ 'Z' then Char.ofNat (c.toNat + 32) else c)

/-- `colors.is_hex_color`: regex `^#([0-9a-fA-F]\x7b3\x7d)\x7b1,2\x7d$`. -/
def is_hex_color (cs : Str) : Bool :=
  match cs with
  | '#' :: rest => (rest.length = 3 || rest.length = 6) && rest.all isHexDigitC
  | _ => false

/-- `colors.name_to_hex`. -/
def name_to_hex (color_name : Str) : Except String Str :=
  if is_hex_color color_name then .ok color_name
  else
    match alookup (pyLower color_name) color_names with
    | some h => .ok h
    | none => .error ("ValueError: Unknown color name: " ++ String.mk color_name)

deriving instance DecidableEq for Except


/-! ## colorsys (Python standard library, used by color_generation.py) -/

/-- `colorsys.rgb_to_hls` (returns `(h, l, s)`, each as exact rationals). -/
def rgb_to_hls (r g b : ℚ) : ℚ × ℚ × ℚ :=
  let maxc := max r (max g b)
  let minc := min r (min g b)
  let sumc := maxc + minc
  let rangec := maxc - minc
  let l := sumc / 2
  if minc = maxc then (0, l, 0)
  else
    let s := if l ≤ 1 / 2 then rangec / sumc else rangec / (2 - sumc)
    let rc := (maxc - r) / rangec
    let gc := (maxc - g) / rangec
    let bc := (maxc - b) / rangec
    let h :=
      if r = maxc then bc - gc
      else if g = maxc then 2 + rc - bc
      else 4 + gc - rc
    (pymod (h / 6) 1, l, s)

/-- `colorsys._v`. -/
def hls_v (m1 m2 hue : ℚ) : ℚ :=
  let hue := pymod hue 1
  if hue < 1 / 6 then m1 + (m2 - m1) * hue * 6
  else if hue < 1 / 2 then m2
  else if hue < 2 / 3 then m1 + (m2 - m1) * (2 / 3 - hue) * 6
  else m1

/-- `colorsys.hls_to_rgb`. -/
def hls_to_rgb (h l s : ℚ) : ℚ × ℚ × ℚ :=
  if s = 0 then (l, l, l)
  else
    let m2 := if l ≤ 1 / 2 then l * (1 + s) else l + s - l * s
    let m1 := 2 * l - m2
    (hls_v m1 m2 (h + 1 / 3), hls_v m1 m2 h, hls_v m1 m2 (h - 1 / 3))

/-! ## color_generation.py — color algebra -/

structure HSL where
  hue : ℚ
  saturation : ℚ
  lightness : ℚ
deriving DecidableEq, Repr

/-- `hex_to_hsl`: strips `#`, expands 3-digit shorthand, parses the three
channel bytes and converts through `colorsys.rgb_to_hls`; returns the
tuple `(h*360, s*100, l*100)` in that order, as in the source. -/
def hex_to_hsl (hex_color : Str) : Except String (ℚ × ℚ × ℚ) := do
  let h1 := lstripSet (chars "#") hex_color
  let h2 := if h1.length = 3 then (h1.map (fun c => [c, c])).flatten else h1
  let rv ← intBase16 (h2.take 2)
  let gv ← intBase16 ((h2.drop 2).take 2)
  let bv ← intBase16 ((h2.drop 4).take 2)
  let t := rgb_to_hls ((rv : ℚ) / 255) ((gv : ℚ) / 255) ((bv : ℚ) / 255)
  .ok (t.1 * 360, t.2.2 * 100, t.2.1 * 100)

/-- `HSL.from_hex` (the tuple is `(hue, saturation, lightness)`). -/
def HSL.from_hex (hex : Str) : Except String HSL := do
  let t ← hex_to_hsl (pyStrip hex)
  .ok ⟨t.1, t.2.1, t.2.2⟩

/-- `hsl_to_rgb` (channels scaled back to 0–255). -/
def hsl_to_rgb (h s li : ℚ) : ℚ × ℚ × ℚ :=
  let t := hls_to_rgb (h / 360) (li / 100) (s / 100)
  (t.1 * 255, t.2.1 * 255, t.2.2 * 255)

/-- `adjust_lightness` (luminance-target correction). -/
def adjust_lightness (R : RealFns) (h s li : ℚ) (target_luminance : ℚ) : ℚ :=
  let t := hsl_to_rgb h s li
  let Y := (0.2126 * t.1 + 0.7152 * t.2.1 + 0.0722 * t.2.2) / 255
  if Y = 0 then li
  else
    let correction_factor := R.log1p target_luminance / R.log1p (Y * 100)
    max 0 (min 100 (li * correction_factor))

/-- `adjust_saturation` (automatic perceptual correction curve). -/
def adjust_saturation (R : RealFns) (h s : ℚ) : ℚ :=
  let factor : ℚ :=
    if 90 ≤ h ∧ h ≤ 150 then
      if h ≤ 120 then 1 - ((h - 90) / 30) * 0.2
      else 0.8 + ((h - 120) / 30) * 0.2
    else if 180 ≤ h ∧ h ≤ 300 then
      1 + 0.140625 * R.sin ((h - 180) * R.pi / 120)
    else 1
  min 100 (s * factor)

/-- `adjust_value`: note the clamp upper bound is `1` in the source. -/
def adjust_value (value delta : ℚ) : ℚ :=
  max 0 (min 1 (value + delta))

/-- `adjust_hue`: wrap with Python float `%`. -/
def adjust_hue (hue value : ℚ) : ℚ := pymod (hue + value) 360

/-- The regex `([=+-])(\d+(\.\d+)?)` applied with `re.match` (anchored at
the start only; trailing characters are ignored). -/
def matchColorAction (cs : Str) : Option (Char × ℚ) :=
  match cs with
  | [] => none
  | op :: t =>
    if op = '=' || op = '+' || op = '-' then
      let ds := t.takeWhile Char.isDigit
      if ds.isEmpty then none
      else
        match t.drop ds.length with
        | '.' :: r2 =>
          let fs := r2.takeWhile Char.isDigit
          if fs.isEmpty then some (op, (parseNat ds : ℚ))
          else some (op, (parseNat ds : ℚ) + (parseNat fs : ℚ) / (10 : ℚ) ^ fs.length)
        | _ => some (op, (parseNat ds : ℚ))
    else none

/-- `color_action`: parse the operator token and dispatch. -/
def color_action (func : ℚ → ℚ → ℚ) (original : ℚ) (parameter : Str) :
    Except String ℚ :=
  match matchColorAction parameter with
  | none => .error "ValueError: Couldnt understand parameter"
  | some (operation, value) =>
    if operation = '=' then .ok value
    else if operation = '+' then .ok (func original value)
    else if operation = '-' then .ok (func original (-value))
    else .ok original

/-- Python `float(s)` on the strings that reach it (sign, digits,
optional fractional part). -/
def pyFloat (cs : Str) : Except String ℚ :=
  let s := pyStrip cs
  let sign : ℚ := match s with
    | '-' :: _ => -1
    | _ => 1
  let t := match s with
    | '-' :: t => t
    | '+' :: t => t
    | t => t
  let ds := t.takeWhile Char.isDigit
  match t.drop ds.length with
  | [] =>
    if ds.isEmpty then .error "ValueError: could not convert string to float"
    else .ok (sign * (parseNat ds : ℚ))
  | '.' :: r2 =>
    let fs := r2.takeWhile Char.isDigit
    if (r2.drop fs.length).isEmpty && !(ds.isEmpty && fs.isEmpty) then
      .ok (sign * ((parseNat ds : ℚ) + (parseNat fs : ℚ) / (10 : ℚ) ^ fs.length))
    else .error "ValueError: could not convert string to float"
  | _ => .error "ValueError: could not convert string to float"

/-! ## color_generation.py — specs and the palette resolver -/

/-- The value attached to one key of a parsed adjustment block: either a
string (operator tokens, numbers, link targets) or a list of strings
(the `flags` list built for `no-adjust`). -/
inductive DVal where
  | s (v : Str)
  | ls (vs : List Str)
deriving DecidableEq, Repr

/-- A parsed palette entry: either a plain string (`color::...` or
`link::...`) or an adjustment dict. -/
inductive PVal where
  | str (v : Str)
  | dict (d : List (Str × DVal))
deriving DecidableEq, Repr

/-- The regex `color::(\w+)` applied with `re.match`: anchored at the
start, `\w` does not match `#`. -/
def match_color (cs : Str) : Option Str :=
  if startsWithS (chars "color::") cs then
    let w := (cs.drop 7).takeWhile (fun c => c.isAlphanum || c = '_')
    if w.isEmpty then none else some w
  else none

/-- One axis of the adjustment branch of `generate_color`: absent key
leaves the value unchanged, a string key goes through `color_action`.
(A non-string value would raise `TypeError` inside `re.match`.) -/
def applyAxis (func : ℚ → ℚ → ℚ) (cur : ℚ) (d : List (Str × DVal)) (k : Str) :
    Except String ℚ :=
  match alookup k d with
  | none => .ok cur
  | some (.s v) => color_action func cur v
  | some (.ls _) => .error "TypeError: expected string or bytes-like object"

/-- `generate_color`: literal strings resolve through the color-name
lookup (ignoring the base color); adjustment dicts apply the `h`, `s`,
`l` operators, the optional luminance correction, and then ALWAYS the
automatic saturation correction — the `flags` key is never consulted. -/
def generate_color (R : RealFns) (hsl : HSL) (params : PVal) : Except String HSL :=
  match params with
  | .str s =>
    match match_color s with
    | some nm => do
      let hex_color ← name_to_hex nm
      HSL.from_hex hex_color
    | none => .error "ValueError: Couldnt understand parameter"
  | .dict d => do
    let hue ← applyAxis adjust_hue hsl.hue d (chars "h")
    let saturation ← applyAxis adjust_value hsl.saturation d (chars "s")
    let lightness ← applyAxis adjust_value hsl.lightness d (chars "l")
    let lightness ←
      match alookup (chars "luminance") d with
      | none => .ok lightness
      | some (.s v) => do
        let t ← pyFloat v
        .ok (adjust_lightness R hue saturation lightness t)
      | some (.ls _) => .error "TypeError: float() argument"
    .ok ⟨hue, adjust_saturation R hue saturation, lightness⟩

/-- First pass of `generate_palette`: top-level `link::` strings are
deferred into `links`; dict entries carrying a `link` key resolve against
the already-generated target (`KeyError` if absent); everything else is
resolved against the global base color. -/
def gp_pass1 (R : RealFns) (color : HSL) :
    List (Str × PVal) → List (Str × Str) → List (Str × HSL) →
    Except String (List (Str × Str) × List (Str × HSL))
  | [], links, generated => .ok (links, generated)
  | (key, value) :: rest, links, generated =>
    match value with
    | .str v =>
      if startsWithS (chars "link::") v then
        gp_pass1 R color rest (insertPy key v links) generated
      else do
        let c ← generate_color R color (.str v)
        gp_pass1 R color rest links (insertPy key c generated)
    | .dict d =>
      match alookup (chars "link") d with
      | some (.s t) =>
        match alookup t generated with
        | some c => do
          let c' ← generate_color R c (.dict d)
          gp_pass1 R color rest links (insertPy key c' generated)
        | none => .error ("KeyError: " ++ String.mk t)
      | some (.ls _) => .error "TypeError: unhashable type"
      | none => do
        let c ← generate_color R color (.dict d)
        gp_pass1 R color rest links (insertPy key c generated)

/-- Second pass of `generate_palette`: the deferred top-level links are
resolved, with the target name recovered by `value.lstrip("link::")` —
a character-set strip, not a prefix removal. -/
def gp_pass2 : List (Str × Str) → List (Str × HSL) →
    Except String (List (Str × HSL))
  | [], generated => .ok generated
  | (key, value) :: rest, generated =>
    let name := lstripSet (chars "link::") value
    match alookup name generated with
    | some c => gp_pass2 rest (insertPy key c generated)
    | none => .error ("KeyError: " ++ String.mk name)

def startsDollar (cs : Str) : Bool :=
  match cs with
  | '$' :: _ => true
  | _ => false

/-- Final pass of `generate_palette`: copy out every entry whose name
does not begin with `$`. -/
def gp_filter (generated : List (Str × HSL)) : List (Str × HSL) :=
  generated.foldl (fun res kv => if startsDollar kv.1 then res else insertPy kv.1 kv.2 res) []

/-- `generate_palette`. -/
def generate_palette (R : RealFns) (color : HSL) (palette : List (Str × PVal)) :
    Except String (List (Str × HSL)) := do
  let lg ← gp_pass1 R color palette [] []
  let generated ← gp_pass2 lg.1 lg.2
  .ok (gp_filter generated)

/-! ## color_generation.py — DSL parser -/

/-- `remove_whitespace`: delete every space, newline and tab
(regex `[ \n\t]`). -/
def remove_whitespace (cs : Str) : Str :=
  cs.filter (fun c => !(c == ' ' || c == '\n' || c == '\t'))

def removeCommentsGo : Nat → Str → Str
  | 0, cs => cs
  | _, [] => []
  | fuel + 1, '/' :: '/' :: t => removeCommentsGo fuel (t.dropWhile (fun c => c ≠ '\n'))
  | fuel + 1, c :: t => c :: removeCommentsGo fuel t

/-- Strip `//`-comments to end of line (regex `\/\/.*` with MULTILINE). -/
def removeComments (cs : Str) : Str := removeCommentsGo cs.length cs

/-- `is_number`: regex `^-?\d+(\.\d+)?$` (fully anchored). -/
def is_number (cs : Str) : Bool :=
  let t := match cs with
    | '-' :: t => t
    | t => t
  let ds := t.takeWhile Char.isDigit
  !ds.isEmpty &&
    (match t.drop ds.length with
     | [] => true
     | '.' :: r => !r.isEmpty && r.all Char.isDigit
     | _ => false)

/-- Identifier characters of the link regexes: `[a-zA-Z0-9\-_\$]`. -/
def identChar (c : Char) : Bool := c.isAlphanum || c == '-' || c == '_' || c == '$'

/-- The optional tail of the `brackets_with_link` regex:
`(?:\s*=>[a-zA-Z0-9\-_\$]+)?$`. -/
def bwlSuffixOk (t : Str) : Bool :=
  t.isEmpty ||
    (match t.dropWhile isPySpace with
     | '=' :: '>' :: r => !r.isEmpty && r.all identChar
     | _ => false)

/-- Backtracking scan for `\x2e+?\x7d` followed by `bwlSuffixOk`:
a match exists iff some `\x7d` is preceded by at least one non-newline
character and followed by an admissible tail. -/
def bwlScan : Bool → Str → Bool
  | _, [] => false
  | seen, c :: t =>
    if c == '\x7d' && seen && bwlSuffixOk t then true
    else if c == '\n' then false
    else bwlScan true t

/-- The regex `^\x7b.+?\x7d(?:\s*=>[a-zA-Z0-9\-_\$]+)?$` of
`regex["brackets_with_link"]`. -/
def brackets_with_link (cs : Str) : Bool :=
  match cs with
  | '\x7b' :: rest => bwlScan false rest
  | _ => false

/-- The regex `^=>[a-zA-Z0-9\-_\$]+$` of `regex["link"]`. -/
def link_re (cs : Str) : Bool :=
  match cs with
  | '=' :: '>' :: r => !r.isEmpty && r.all identChar
  | _ => false

/-- The regex `^[#a-zA-Z0-9]+$` of `regex["color"]`. -/
def color_re (cs : Str) : Bool :=
  !cs.isEmpty && cs.all (fun c => c == '#' || c.isAlphanum)

/-- The inner loop of `parse_palette` over the comma-separated items of
an adjustment block, building `parsed_dict`. -/
def parseDictInner : List Str → List (Str × DVal) → Except String (List (Str × DVal))
  | [], acc => .ok acc
  | x :: rest, acc =>
    match splitOnChar ':' (pyStrip x) with
    | [key, val] =>
      if !is_number (val.drop 1) then
        .error "ValueError: The value must be a number"
      else if key = chars "lum" then
        parseDictInner rest (insertPy (chars "luminance") (.s ((pyStrip val).drop 1)) acc)
      else if key = chars "no-adjust" ∧ pyStrip val = chars "!1" then
        match alookup (chars "flags") acc with
        | none =>
          parseDictInner rest (insertPy (chars "flags") (.ls [chars "no-adjust"]) acc)
        | some (.ls cur) =>
          parseDictInner rest (insertPy (chars "flags") (.ls (cur ++ [chars "no-adjust"])) acc)
        | some (.s _) => .error "AttributeError: str has no attribute append"
      else
        parseDictInner rest (insertPy (pyStrip key) (.s (pyStrip val)) acc)
    | _ => .error "ValueError: Invalid format, expected key value"

/-- Classify the right-hand side of one statement, in the priority order
of the source: adjustment block, then link marker, then literal color. -/
def classify_value (parsed : List (Str × PVal)) (value : Str) : Except String PVal :=
  if brackets_with_link value then
    if value.count '\x7b' ≠ value.count '\x7d' then
      .error "ValueError: Unmatched curly braces in value"
    else do
      let pair ←
        if containsSub (chars "=>") value then
          match splitSub (chars "=>") value with
          | [a, b] => Except.ok (a, some b)
          | _ => Except.error "ValueError: too many values to unpack"
        else Except.ok (value, none)
      let inner := splitOnChar ',' ((pair.1.drop 1).dropLast)
      let d ← parseDictInner inner []
      let d := match pair.2 with
        | some l => if l.isEmpty then d else insertPy (chars "link") (.s l) d
        | none => d
      .ok (.dict d)
  else if link_re value then
    let inner := pyStrip (lstripSet (chars "=>") value)
    if (alookup inner parsed).isSome then .ok (.str (chars "link::" ++ inner))
    else .error ("ValueError: Variable not found: " ++ String.mk inner)
  else if color_re value then .ok (.str (chars "color::" ++ pyStrip value))
  else .error "ValueError: Invalid color format"

/-- One iteration of the statement loop of `parse_palette`: split on the
first `:`, classify the value, store it under the stripped name
(silently overwriting any earlier binding). -/
def parse_line (parsed : List (Str × PVal)) (line : Str) :
    Except String (List (Str × PVal)) :=
  match splitOnceChar ':' line with
  | none => .error "ValueError: Invalid line format, expected key value"
  | some (var, value) => do
    let v ← classify_value parsed value
    .ok (insertPy (pyStrip var) v parsed)

def parse_lines (parsed : List (Str × PVal)) : List Str →
    Except String (List (Str × PVal))
  | [] => .ok parsed
  | l :: rest => do
    let parsed' ← parse_line parsed l
    parse_lines parsed' rest

/-- `parse_palette`: split source on `>>>`, strip comments and
whitespace from the statement region, process the `;`-separated
statements, and return the parsed document plus the template. -/
def parse_palette (s : String) : Except String (List (Str × PVal) × Str) :=
  match splitOnceSub (chars ">>>") (chars s) with
  | none => .error "ValueError: Invalid palette format. Expected >>>."
  | some (codeRaw, fmt) => do
    let code := remove_whitespace (pyStrip (removeComments codeRaw))
    let lines := (splitOnChar ';' code).filter (fun l => !l.isEmpty)
    let parsed ← parse_lines [] lines
    .ok (parsed, pyStrip (lstripSet (chars ">>>") fmt))

/-! ## color_generation.py — backend compilers -/

/-- Python `str` repr of a list of strings (used when `.format` receives
a list; unreachable from parser-produced documents). -/
def pyReprStrList (ts : List Str) : Str :=
  let q : Char := Char.ofNat 39
  ['['] ++ ((ts.map (fun s => [q] ++ s ++ [q])).intersperse (chars ", ")).flatten ++ [']']

/-- Python `x[0], x[1:]` on a dict value (string or list). -/
def item0 (v : DVal) : Except String (Str × Str) :=
  match v with
  | .s [] => .error "IndexError: string index out of range"
  | .s (c :: t) => .ok ([c], t)
  | .ls [] => .error "IndexError: list index out of range"
  | .ls (p :: t) => .ok (p, pyReprStrList t)

/-- `fmt.format(arg)` for format strings with one positional hole. -/
def formatHole (fmt arg : Str) : Str := replaceOnceSub (chars "\x7b\x7d") arg fmt

/-- `fmt.format(key=..., value=...)`. -/
def formatKV (fmt key value : Str) : Str :=
  replaceOnceSub (chars "\x7bvalue\x7d") value
    (replaceOnceSub (chars "\x7bkey\x7d") key fmt)

/-- The default `HSLFormat` field values (`round=True`). -/
def HSLFormat_hue : Str := chars "\x7b\x7ddeg"

def HSLFormat_saturation : Str := chars "\x7b\x7d%"

def HSLFormat_lightness : Str := chars "\x7b\x7d%"

def HSLFormat_hsl : Str := chars "hsl(\x7bh\x7d, \x7bs\x7d, \x7bl\x7d)"

/-- `HSLFormat.format_value` with `round=True`, rendered to text. -/
def format_value (v : ℚ) : Str := intToStr (pyRound v)

def formatHSLTemplate (h s l : Str) : Str :=
  replaceOnceSub (chars "\x7bl\x7d") l
    (replaceOnceSub (chars "\x7bs\x7d") s
      (replaceOnceSub (chars "\x7bh\x7d") h HSLFormat_hsl))

/-- `HSLFormat.format_full` (default format, rounding each channel). -/
def hslfmt_full (hsl : HSL) : Str :=
  formatHSLTemplate (formatHole HSLFormat_hue (format_value hsl.hue))
    (formatHole HSLFormat_saturation (format_value hsl.saturation))
    (formatHole HSLFormat_lightness (format_value hsl.lightness))

/-- `HSLFormat.format_hsl` on a three-element list. -/
def hslfmt_list (l : List Str) : Str :=
  formatHSLTemplate (l.getD 0 []) (l.getD 1 []) (l.getD 2 [])

/-- The per-backend arguments of `Compiler.compile`. -/
structure CompileArgs where
  color_actions : List (Str × Str)
  predefined_colors : List (Str × Str)
  indexes : List (Str × Nat)
  pre_conf : List Str
  var_format : Str
  output_var_format : Str
  template : Str
deriving DecidableEq, Repr

/-- The mutable state of the `Compiler.compile` loop. -/
structure CState where
  generated : List (Str × Str)
  links : List (Str × PVal)
  warnings : List Str
deriving DecidableEq, Repr

def warn_link (key : Str) : Str :=
  chars "WARNING:Links isnt supported on this type of compiler! Color " ++
    key ++ chars " was skipped."

def warn_lum (key : Str) : Str :=
  chars "WARNING:Luminance isnt supported on this type of compiler! Color " ++
    key ++ chars " was skipped."

/-- `key.replace("$", "lvc-", 1)` under the guard `key.startswith("$")`. -/
def transformKey (key : Str) : Str :=
  if startsDollar key then chars "lvc-" ++ key.drop 1 else key

/-- The inner loop of the adjustment branch of `Compiler.compile`:
for each item, look up `color_actions[value[0] + key]` (the Python code
evaluates this lookup first) and then `indexes[key]`, writing the
formatted expression into the positional slot. -/
def compileItems (A : CompileArgs) : List (Str × DVal) → List Str →
    Except String (List Str)
  | [], prs => .ok prs
  | (k, v) :: rest, prs => do
    let pr ← item0 v
    match alookup (pr.1 ++ k) A.color_actions with
    | none => .error ("KeyError: " ++ String.mk (pr.1 ++ k))
    | some fmt =>
      match alookup k A.indexes with
      | none => .error ("KeyError: " ++ String.mk k)
      | some i => compileItems A rest (prs.set i (formatHole fmt pr.2))

/-- One iteration of the entry loop of `Compiler.compile`. -/
def compileStep (A : CompileArgs) (parsed : List (Str × PVal)) (st : CState)
    (entry : Str × PVal) : Except String CState :=
  let key := transformKey entry.1
  match entry.2 with
  | .str v =>
    if startsWithS (chars "link::") v then
      match alookup key parsed with
      | some pv => .ok { st with links := insertPy key pv st.links }
      | none => .error ("KeyError: " ++ String.mk key)
    else if startsWithS (chars "color::") v then do
      let name := lstripSet (chars "color::") v
      let hex_color ← name_to_hex name
      let hsl ← HSL.from_hex hex_color
      .ok { st with generated := insertPy key (hslfmt_full hsl) st.generated }
    else .ok st
  | .dict d =>
    if (alookup (chars "link") d).isSome then
      .ok { st with warnings := st.warnings ++ [warn_link key] }
    else if (alookup (chars "luminance") d).isSome then
      .ok { st with warnings := st.warnings ++ [warn_lum key] }
    else do
      let prs ← compileItems A d A.pre_conf
      .ok { st with generated := insertPy key (hslfmt_list prs) st.generated }

def compileEntries (A : CompileArgs) (parsed : List (Str × PVal)) :
    List (Str × PVal) → CState → Except String CState
  | [], st => .ok st
  | e :: rest, st => do
    let st' ← compileStep A parsed st e
    compileEntries A parsed rest st'

/-- The second (link) pass of `Compiler.compile`: emit a variable
reference for each deferred string link, recovering the target with the
same buggy `lstrip("link::")` character-set strip. -/
def compileLinks (A : CompileArgs) : List (Str × PVal) → List (Str × Str) →
    List (Str × Str)
  | [], generated => generated
  | (key, value) :: rest, generated =>
    match value with
    | .str v =>
      let name := transformKey (lstripSet (chars "link::") v)
      compileLinks A rest (insertPy key (formatHole A.var_format name) generated)
    | .dict _ => compileLinks A rest generated

/-- `Compiler.compile` up to (but not including) output rendering:
returns the generated variable map and the emitted warnings. -/
def compileCore (A : CompileArgs) (parsed : List (Str × PVal)) :
    Except String CState := do
  let st ← compileEntries A parsed parsed ⟨A.predefined_colors, [], []⟩
  .ok { st with generated := compileLinks A st.links st.generated }

def renderOutput (A : CompileArgs) (generated : List (Str × Str)) : Str :=
  replaceAllSub (chars "<here>")
    (generated.foldl (fun acc kv => acc ++ formatKV A.output_var_format kv.1 kv.2) [])
    A.template

/-- `Compiler.compile` (the CSS/SCSS backend engine). -/
def Compiler.compile (A : CompileArgs) (parsed : List (Str × PVal)) :
    Except String Str := do
  let st ← compileCore A parsed
  .ok (renderOutput A st.generated)

/-- The arguments `Compiler.to_css` fixes for `Compiler.compile`. -/
def cssArgs : CompileArgs where
  color_actions := [
    (chars "+h", chars "calc(var(--lvc-h) + \x7b\x7ddeg)"),
    (chars "-h", chars "calc(var(--lvc-h) - \x7b\x7ddeg)"),
    (chars "+s", chars "calc(var(--lvc-s) + \x7b\x7d%)"),
    (chars "-s", chars "calc(var(--lvc-s) - \x7b\x7d%)"),
    (chars "+l", chars "calc(var(--lvc-l) + \x7b\x7d%)"),
    (chars "-l", chars "calc(var(--lvc-l) - \x7b\x7d%)"),
    (chars "=h", chars "\x7b\x7ddeg"),
    (chars "=s", chars "\x7b\x7d%"),
    (chars "=l", chars "\x7b\x7d%")]
  predefined_colors := [
    (chars "lvc-h", chars "0deg"),
    (chars "lvc-s", chars "0%"),
    (chars "lvc-l", chars "0%")]
  indexes := [(chars "h", 0), (chars "s", 1), (chars "l", 2)]
  pre_conf := [chars "var(--lvc-h)", chars "var(--lvc-s)", chars "var(--lvc-l)"]
  var_format := chars "var(--\x7b\x7d)"
  output_var_format := chars "\n  --\x7bkey\x7d: \x7bvalue\x7d;"
  template := chars ":root \x7b<here>\n\x7d\n"

/-- The arguments `Compiler.to_scss` fixes for `Compiler.compile`
(the default template `<here>` is used). -/
def scssArgs : CompileArgs where
  color_actions := [
    (chars "+h", chars "$lvc-h + \x7b\x7ddeg"),
    (chars "-h", chars "$lvc-h - \x7b\x7ddeg"),
    (chars "+s", chars "$lvc-s + \x7b\x7d%"),
    (chars "-s", chars "$lvc-s - \x7b\x7d%"),
    (chars "+l", chars "$lvc-l + \x7b\x7d%"),
    (chars "-l", chars "$lvc-l - \x7b\x7d%"),
    (chars "=h", chars "\x7b\x7ddeg"),
    (chars "=s", chars "\x7b\x7d%"),
    (chars "=l", chars "\x7b\x7d%")]
  predefined_colors := [
    (chars "lvc-h", chars "0deg"),
    (chars "lvc-s", chars "0%"),
    (chars "lvc-l", chars "0%")]
  indexes := [(chars "h", 0), (chars "s", 1), (chars "l", 2)]
  pre_conf := [chars "$lvc-h", chars "$lvc-s", chars "$lvc-l"]
  var_format := chars "$\x7b\x7d"
  output_var_format := chars "$\x7bkey\x7d: \x7bvalue\x7d;\n"
  template := chars "<here>"

def Compiler.to_css (parsed : List (Str × PVal)) : Except String Str :=
  Compiler.compile cssArgs parsed

def Compiler.to_scss (parsed : List (Str × PVal)) : Except String Str :=
  Compiler.compile scssArgs parsed

/-- A value of the JSON object emitted per entry by `Compiler.to_json`. -/
inductive JF where
  | s (v : Str)
  | ls (vs : List Str)
  | pairS (a b : Str)
  | pairL (a : Str) (bs : List Str)
deriving DecidableEq, Repr

abbrev JObj := List (Str × JF)

/-- One `h`/`s`/`l` axis of the `to_json` adjustment branch:
`to_add[var] = [value[0], value[1:]]`. -/
def toJsonAxis (to_add : JObj) (d : List (Str × DVal)) (k : Str) :
    Except String JObj :=
  match alookup k d with
  | none => .ok to_add
  | some (.s []) => .error "IndexError: string index out of range"
  | some (.s (c :: t)) => .ok (insertPy k (.pairS [c] t) to_add)
  | some (.ls []) => .error "IndexError: list index out of range"
  | some (.ls (p :: t)) => .ok (insertPy k (.pairL p t) to_add)

def toJsonGo : List (Str × PVal) → List (Str × JObj) →
    Except String (List (Str × JObj))
  | [], generated => .ok generated
  | (key, value) :: rest, generated =>
    match value with
    | .str v =>
      if startsWithS (chars "link::") v then
        toJsonGo rest
          (insertPy key [(chars "link", .s (lstripSet (chars "link::") v))] generated)
      else if startsWithS (chars "color::") v then do
        let hex_color ← name_to_hex (lstripSet (chars "color::") v)
        toJsonGo rest (insertPy key [(chars "hex", .s hex_color)] generated)
      else toJsonGo rest generated
    | .dict d => do
      let a0 : JObj :=
        match alookup (chars "link") d with
        | some (.s v) => [(chars "link", .s v)]
        | some (.ls vs) => [(chars "link", .ls vs)]
        | none => []
      let a1 :=
        match alookup (chars "luminance") d with
        | some (.s v) => insertPy (chars "luminance") (JF.s v) a0
        | some (.ls vs) => insertPy (chars "luminance") (JF.ls vs) a0
        | none => a0
      let a2 :=
        match alookup (chars "flags") d with
        | some (.s v) => insertPy (chars "flags") (JF.s v) a1
        | some (.ls vs) => insertPy (chars "flags") (JF.ls vs) a1
        | none => a1
      let a3 ← toJsonAxis a2 d (chars "h")
      let a4 ← toJsonAxis a3 d (chars "s")
      let a5 ← toJsonAxis a4 d (chars "l")
      toJsonGo rest (insertPy key a5 generated)

/-- `Compiler.to_json` modelled up to JSON serialization: the returned
association list is the dict passed to `json.dumps`, whose keys appear
verbatim in the emitted JSON text. -/
def Compiler.to_json (parsed : List (Str × PVal)) :
    Except String (List (Str × JObj)) :=
  toJsonGo parsed []

/-! ## Helper definitions for the claim statements -/

def exceptOk {ε α : Type} : Except ε α → Bool
  | .ok _ => true
  | .error _ => false

/-- The raised error is the `UnknownColor` error of `name_to_hex`. -/
def isUnknownColorError {α : Type} : Except String α → Bool
  | .error m => startsWithS (chars "ValueError: Unknown color name") (chars m)
  | .ok _ => false

/-- The name starts with one of the characters of `"color::"`
(other than `:`), i.e. `c`, `o`, `l` or `r`. -/
def startsColr (cs : Str) : Bool :=
  match cs with
  | c :: _ => c == 'c' || c == 'o' || c == 'l' || c == 'r'
  | [] => false

/-- A one-entry document holding a single literal color token, as built
by the parser for the statement `x: <name>`. -/
def litDoc (nm : Str) : List (Str × PVal) :=
  [(chars "x", PVal.str (chars "color::" ++ nm))]

/-- Finite check over the whole color table: every known color name
beginning with `c`/`o`/`l`/`r` makes all three backends raise the
unknown-color error, and every other known name compiles fine. -/
def c10_check : Bool :=
  color_names.all (fun p =>
    if startsColr p.1 then
      isUnknownColorError (Compiler.to_css (litDoc p.1)) &&
      isUnknownColorError (Compiler.to_scss (litDoc p.1)) &&
      isUnknownColorError (Compiler.to_json (litDoc p.1))
    else
      exceptOk (Compiler.to_css (litDoc p.1)) &&
      exceptOk (Compiler.to_scss (litDoc p.1)) &&
      exceptOk (Compiler.to_json (litDoc p.1)))

/-! ## Helper lemmas -/

lemma pymod_nonneg (a : ℚ) {b : ℚ} (hb : 0 < b) : 0 ≤ pymod a b := by
  unfold pymod
  have h1 : (⌊a / b⌋ : ℚ) ≤ a / b := Int.floor_le _
  have h2 : (⌊a / b⌋ : ℚ) * b ≤ a := by rwa [← le_div_iff₀ hb]
  linarith

lemma pymod_lt (a : ℚ) {b : ℚ} (hb : 0 < b) : pymod a b < b := by
  unfold pymod
  have h1 : a / b < (⌊a / b⌋ : ℚ) + 1 := Int.lt_floor_add_one _
  have h2 : a < ((⌊a / b⌋ : ℚ) + 1) * b := by rwa [← div_lt_iff₀ hb]
  nlinarith

lemma pymod_add_right (a : ℚ) {b : ℚ} (hb : b ≠ 0) :
    pymod (a + b) b = pymod a b := by
  unfold pymod
  have hdiv : (a + b) / b = a / b + 1 := by field_simp
  rw [hdiv]
  rw [show a / b + (1 : ℚ) = a / b + (1 : ℤ) by push_cast; ring]
  rw [Int.floor_add_int]
  push_cast
  ring

lemma alookup_insertPy_self {α : Type} (k : Str) (v : α) (l : List (Str × α)) :
    alookup k (insertPy k v l) = some v := by
  induction l with
  | nil => simp [insertPy, alookup]
  | cons a t ih =>
    obtain ⟨k', v'⟩ := a
    by_cases hk : k' = k
    · simp [insertPy, alookup, hk]
    · simp [insertPy, alookup, hk, ih]

lemma mem_insertPy {α : Type} {kv : Str × α} {k : Str} {v : α}
    {l : List (Str × α)} (h : kv ∈ insertPy k v l) : kv = (k, v) ∨ kv ∈ l := by
  induction l with
  | nil => simpa [insertPy] using h
  | cons a t ih =>
    obtain ⟨k', v'⟩ := a
    by_cases hk : k' = k
    · rw [insertPy, if_pos hk] at h
      rcases List.mem_cons.mp h with h1 | h1
      · exact Or.inl h1
      · exact Or.inr (List.mem_cons_of_mem _ h1)
    · rw [insertPy, if_neg hk] at h
      rcases List.mem_cons.mp h with h1 | h1
      · exact Or.inr (h1 ▸ List.mem_cons_self _ _)
      · rcases ih h1 with h2 | h2
        · exact Or.inl h2
        · exact Or.inr (List.mem_cons_of_mem _ h2)

lemma startsDollar_transformKey (k : Str) : startsDollar (transformKey k) = false := by
  unfold transformKey
  by_cases h : startsDollar k = true
  · rw [if_pos h]
    rfl
  · rw [if_neg h]
    simpa using h

/-! ## Claim theorems -/

/-- Claim C6 (confirmed): for every hue `h` and delta `v`, applying the
`Add` or `Subtract` operator to hue (both dispatch to `adjust_hue`, with
`v` respectively positive or negated, so quantifying over all `v : ℚ`
covers both) yields a result in `[0, 360)`, and adding a full circle to
the delta does not change the result. -/
theorem c6_adjust_hue_range_and_period (h v : ℚ) :
    0 ≤ adjust_hue h v ∧ adjust_hue h v < 360 ∧
      adjust_hue h (v + 360) = adjust_hue h v := by
  unfold adjust_hue
  refine ⟨pymod_nonneg _ (by norm_num), pymod_lt _ (by norm_num), ?_⟩
  rw [show h + (v + 360) = (h + v) + 360 by ring]
  exact pymod_add_right _ (by norm_num)

/-- Claim C2 (code bug): the claim says `Add`/`Subtract` on saturation
or lightness clamps into `[0, 100]`, but `adjust_value` clamps into
`[0, 1]`: adding 10 to a saturation of 50 yields 1 (the claim expects
60), and even subtracting 10 yields 1 (the claim expects 40). -/
theorem c2_clamp_upper_bound_is_one :
    color_action adjust_value 50 (chars "+10") = .ok 1 ∧
    color_action adjust_value 50 (chars "-10") = .ok 1 ∧
    adjust_value 50 10 = 1 ∧ adjust_value 50 10 ≠ 60 := by
  refine ⟨by decide, by decide, by decide, by decide⟩

/-- Claim C1 (code bug): resolving an adjustment whose parsed form
carries the `no-adjust` flag still applies `adjust_saturation`:
with base hue 120 and `s:=50`, the resolved saturation is
`50 * 0.8 = 40`, not the 50 the claim requires, and the result is
identical with or without the flag (`generate_color` never reads
`flags`). -/
theorem c1_noadjust_flag_is_ignored :
    generate_color R0 ⟨120, 10, 50⟩
      (.dict [(chars "s", .s (chars "=50")),
              (chars "flags", .ls [chars "no-adjust"])]) = .ok ⟨120, 40, 50⟩ ∧
    generate_color R0 ⟨120, 10, 50⟩
      (.dict [(chars "s", .s (chars "=50"))]) = .ok ⟨120, 40, 50⟩ ∧
    (40 : ℚ) ≠ 50 := by
  refine ⟨by decide, by decide, by decide⟩

/-- Claim C3 (code bug): a `Literal` whose token is a valid hex code
never resolves through `generate_color`: with a leading `#` the
`color::(\w+)` regex fails to match (`\w` excludes `#`), and without it
`name_to_hex` rejects the token (its hex test demands a leading `#`),
so both shapes raise instead of producing the hex color's HSL. -/
theorem c3_hex_literals_never_resolve :
    generate_color R0 ⟨0, 0, 0⟩ (.str (chars "color::#00ff00")) =
      .error "ValueError: Couldnt understand parameter" ∧
    generate_color R0 ⟨0, 0, 0⟩ (.str (chars "color::00ff00")) =
      .error "ValueError: Unknown color name: 00ff00" ∧
    generate_color R0 ⟨0, 0, 0⟩ (.str (chars "color::#0f0")) =
      .error "ValueError: Couldnt understand parameter" := by
  refine ⟨by decide, by decide, by decide⟩

/-- Claim C4 (code bug): a simple top-level link to the successfully
resolved entry `lime` crashes palette generation with a `KeyError`,
because `value.lstrip("link::")` strips the characters `l,i,n,k,:` from
the front of `link::lime` and leaves `me`; the claim requires `x` to be
mapped to `lime`'s resolved color. -/
theorem c4_link_to_lime_crashes :
    generate_palette R0 ⟨0, 50, 50⟩
      [(chars "lime", .dict [(chars "h", .s (chars "=120"))]),
       (chars "x", .str (chars "link::lime"))] = .error "KeyError: me" := by
  decide

/-- Claim C5 (counterexample): a source text declaring `a` twice parses
without any error, and the second declaration silently overwrites the
first — the claim requires parsing to fail. -/
theorem c5_counterexample :
    parse_palette "a:red;a:blue;>>>x" =
      .ok ([(chars "a", .str (chars "color::blue"))], chars "x") := by
  decide

/-- Claim C8 (counterexample): the JSON backend (`Compiler.to_json`)
keeps `$`-prefixed names in its output: serializing the document
`$x: white` produces an object keyed by `$x` itself, so a name beginning
with `$` does appear in a backend compiler's output. -/
theorem c8_counterexample :
    Compiler.to_json [(chars "$x", .str (chars "color::white"))] =
      .ok [(chars "$x", [(chars "hex", .s (chars "#ffffff"))])] ∧
    startsDollar (chars "$x") = true := by
  refine ⟨by decide, by decide⟩

/-- Claim C9 (confirmed): the source `a:\x7bno-adjust:!1\x7d;>>>x` parses to
an adjustment entry whose only field is the `flags` list, and compiling
that parsed document with the CSS or SCSS backend raises an uncaught
`KeyError` from the per-item dispatch (neither the operator table nor
the per-axis index table has a `flags` entry) instead of compiling or
skipping the entry. -/
theorem c9_flags_entry_crashes_stylesheet_backends :
    parse_palette "a:\x7bno-adjust:!1\x7d;>>>x" =
      .ok ([(chars "a", .dict [(chars "flags", .ls [chars "no-adjust"])])],
           chars "x") ∧
    Compiler.to_css [(chars "a", .dict [(chars "flags", .ls [chars "no-adjust"])])] =
      .error "KeyError: no-adjustflags" ∧
    Compiler.to_scss [(chars "a", .dict [(chars "flags", .ls [chars "no-adjust"])])] =
      .error "KeyError: no-adjustflags" := by
  refine ⟨by decide, by decide, by decide⟩

/-- Claim C10 (confirmed): `value.lstrip("color::")` is a character-set
strip, so for every known color name beginning with `c`, `o`, `l` or
`r` all three backends raise the unknown-color error, while every other
known name compiles successfully on all three backends; e.g. the token
`color::red` is stripped to `ed`. -/
theorem c10_colr_names_rejected_by_backends :
    c10_check = true ∧
    lstripSet (chars "color::") (chars "color::red") = chars "ed" ∧
    lstripSet (chars "color::") (chars "color::lime") = chars "ime" ∧
    lstripSet (chars "color::") (chars "color::coral") = chars "al" := by
  refine ⟨by decide, by decide, by decide, by decide⟩

lemma compileEntries_cons_ok (A : CompileArgs) (p : List (Str × PVal))
    (e : Str × PVal) (rest : List (Str × PVal)) (st st1 : CState)
    (h : compileStep A p st e = .ok st1) :
    compileEntries A p (e :: rest) st = compileEntries A p rest st1 := by
  calc compileEntries A p (e :: rest) st
      = (do let st' ← compileStep A p st e; compileEntries A p rest st') := by
        rw [compileEntries]
    _ = (do let st' ← Except.ok st1; compileEntries A p rest st') := by rw [h]
    _ = compileEntries A p rest st1 := rfl

/-- Claim C7 (confirmed): an adjustment entry carrying a relative-base
link or a luminance target never makes `Compiler.compile` (the engine
behind both the CSS and the SCSS backend, for any argument set `A`)
raise: the step succeeds, changes neither the generated variables nor
the deferred links (so the entry contributes nothing to the output),
appends exactly one warning naming the skipped entry, and compilation
continues with the remaining entries. -/
theorem c7_unsupported_entry_skipped (A : CompileArgs)
    (parsed rest : List (Str × PVal)) (st : CState) (k : Str)
    (d : List (Str × DVal))
    (h : (alookup (chars "link") d).isSome = true ∨
         (alookup (chars "luminance") d).isSome = true) :
    ∃ w, (w = warn_link (transformKey k) ∨ w = warn_lum (transformKey k)) ∧
      compileStep A parsed st (k, .dict d) =
        .ok { st with warnings := st.warnings ++ [w] } ∧
      compileEntries A parsed ((k, .dict d) :: rest) st =
        compileEntries A parsed rest { st with warnings := st.warnings ++ [w] } := by
  by_cases hl : (alookup (chars "link") d).isSome = true
  · have hstep : compileStep A parsed st (k, .dict d) =
        .ok { st with warnings := st.warnings ++ [warn_link (transformKey k)] } := by
      unfold compileStep
      simp [hl]
    exact ⟨warn_link (transformKey k), Or.inl rfl, hstep,
      compileEntries_cons_ok A parsed _ rest st _ hstep⟩
  · have hlum : (alookup (chars "luminance") d).isSome = true := by
      rcases h with h | h
      · exact absurd h hl
      · exact h
    have hstep : compileStep A parsed st (k, .dict d) =
        .ok { st with warnings := st.warnings ++ [warn_lum (transformKey k)] } := by
      unfold compileStep
      simp [hl, hlum]
    exact ⟨warn_lum (transformKey k), Or.inr rfl, hstep,
      compileEntries_cons_ok A parsed _ rest st _ hstep⟩

theorem c7_witness :
    ∃ w, (w = warn_link (transformKey (chars "b")) ∨
          w = warn_lum (transformKey (chars "b"))) ∧
      compileStep cssArgs [] ⟨[], [], []⟩
          (chars "b", .dict [(chars "link", .s (chars "a"))]) =
        .ok ⟨[], [], [] ++ [w]⟩ ∧
      compileEntries cssArgs [] [(chars "b", .dict [(chars "link", .s (chars "a"))])]
          ⟨[], [], []⟩ =
        compileEntries cssArgs [] [] ⟨[], [], [] ++ [w]⟩ :=
  c7_unsupported_entry_skipped cssArgs [] [] ⟨[], [], []⟩ (chars "b")
    [(chars "link", .s (chars "a"))] (Or.inl (by decide))

lemma except_bind_ok {ε α β : Type} {x : Except ε α} {f : α → Except ε β} {b : β}
    (h : (do let a ← x; f a) = Except.ok b) : ∃ a, x = .ok a ∧ f a = .ok b := by
  cases x with
  | error e => exact Except.noConfusion (show (Except.error e : Except ε β) = .ok b from h)
  | ok a => exact ⟨a, rfl, h⟩

lemma clean_insert {α : Type} (k : Str) (v : α) (l : List (Str × α))
    (hk : startsDollar k = false)
    (hl : ∀ kv ∈ l, startsDollar kv.1 = false) :
    ∀ kv ∈ insertPy k v l, startsDollar kv.1 = false := by
  intro kv hkv
  rcases mem_insertPy hkv with h | h
  · rw [h]
    exact hk
  · exact hl kv h

lemma compileStep_clean (A : CompileArgs) (p : List (Str × PVal)) (st : CState)
    (e : Str × PVal) (st' : CState)
    (hg : ∀ kv ∈ st.generated, startsDollar kv.1 = false)
    (hl : ∀ kv ∈ st.links, startsDollar kv.1 = false)
    (h : compileStep A p st e = .ok st') :
    (∀ kv ∈ st'.generated, startsDollar kv.1 = false) ∧
    (∀ kv ∈ st'.links, startsDollar kv.1 = false) := by
  obtain ⟨k0, val⟩ := e
  unfold compileStep at h
  cases val with
  | str v =>
    dsimp only at h
    by_cases h1 : startsWithS (chars "link::") v = true
    · rw [if_pos h1] at h
      cases h2 : alookup (transformKey k0) p with
      | none =>
        rw [h2] at h
        exact Except.noConfusion h
      | some pv =>
        rw [h2] at h
        cases h
        exact ⟨hg, clean_insert _ _ _ (startsDollar_transformKey k0) hl⟩
    · rw [if_neg h1] at h
      by_cases h2 : startsWithS (chars "color::") v = true
      · rw [if_pos h2] at h
        obtain ⟨hx, -, h⟩ := except_bind_ok h
        obtain ⟨hsl, -, h⟩ := except_bind_ok h
        cases h
        exact ⟨clean_insert _ _ _ (startsDollar_transformKey k0) hg, hl⟩
      · rw [if_neg h2] at h
        cases h
        exact ⟨hg, hl⟩
  | dict d =>
    dsimp only at h
    by_cases h1 : (alookup (chars "link") d).isSome = true
    · rw [if_pos h1] at h
      cases h
      exact ⟨hg, hl⟩
    · rw [if_neg h1] at h
      by_cases h2 : (alookup (chars "luminance") d).isSome = true
      · rw [if_pos h2] at h
        cases h
        exact ⟨hg, hl⟩
      · rw [if_neg h2] at h
        obtain ⟨prs, -, h⟩ := except_bind_ok h
        cases h
        exact ⟨clean_insert _ _ _ (startsDollar_transformKey k0) hg, hl⟩

lemma compileEntries_clean (A : CompileArgs) (p : List (Str × PVal)) :
    ∀ (es : List (Str × PVal)) (st st' : CState),
    (∀ kv ∈ st.generated, startsDollar kv.1 = false) →
    (∀ kv ∈ st.links, startsDollar kv.1 = false) →
    compileEntries A p es st = .ok st' →
    (∀ kv ∈ st'.generated, startsDollar kv.1 = false) ∧
    (∀ kv ∈ st'.links, startsDollar kv.1 = false) := by
  intro es
  induction es with
  | nil =>
    intro st st' hg hl h
    have h' : Except.ok st = .ok st' := h
    cases h'
    exact ⟨hg, hl⟩
  | cons e rest ih =>
    intro st st' hg hl h
    rw [compileEntries] at h
    obtain ⟨st1, hs, h⟩ := except_bind_ok h
    obtain ⟨hg1, hl1⟩ := compileStep_clean A p st e st1 hg hl hs
    exact ih st1 st' hg1 hl1 h

lemma compileLinks_clean (A : CompileArgs) :
    ∀ (ls : List (Str × PVal)) (gen : List (Str × Str)),
    (∀ kv ∈ gen, startsDollar kv.1 = false) →
    (∀ kv ∈ ls, startsDollar kv.1 = false) →
    ∀ kv ∈ compileLinks A ls gen, startsDollar kv.1 = false := by
  intro ls
  induction ls with
  | nil =>
    intro gen hg _ kv hkv
    rw [compileLinks] at hkv
    exact hg kv hkv
  | cons a t ih =>
    intro gen hg hl kv hkv
    obtain ⟨k0, v0⟩ := a
    cases v0 with
    | str v =>
      rw [compileLinks] at hkv
      refine ih _ ?_ (fun kv h => hl kv (List.mem_cons_of_mem _ h)) kv hkv
      exact clean_insert _ _ _ (hl (k0, .str v) (List.mem_cons_self _ _)) hg
    | dict d =>
      rw [compileLinks] at hkv
      exact ih gen hg (fun kv h => hl kv (List.mem_cons_of_mem _ h)) kv hkv

lemma gp_filter_go_clean :
    ∀ (l : List (Str × HSL)) (acc : List (Str × HSL)),
    (∀ kv ∈ acc, startsDollar kv.1 = false) →
    ∀ kv ∈ l.foldl
      (fun res kv => if startsDollar kv.1 then res else insertPy kv.1 kv.2 res) acc,
    startsDollar kv.1 = false := by
  intro l
  induction l with
  | nil =>
    intro acc hacc kv hkv
    exact hacc kv (by simpa using hkv)
  | cons a t ih =>
    intro acc hacc kv hkv
    rw [List.foldl_cons] at hkv
    by_cases ha : startsDollar a.1 = true
    · rw [if_pos ha] at hkv
      exact ih acc hacc kv hkv
    · rw [if_neg ha] at hkv
      refine ih _ ?_ kv hkv
      exact clean_insert _ _ _ (by simpa using ha) hacc

/-- Claim C8 (amended): no `$`-prefixed name appears among the resolved
Palette's public entries, nor among the variables generated by the
CSS/SCSS compiler engine (whenever the backend's predefined variables
are `$`-free, as the CSS and SCSS tables are), and `$`-prefixed entries
remain usable as targets: a relative-base link resolves against the
already-resolved target color kept in the internal map, and a top-level
link copies it by value.  (The JSON backend, by contrast, keeps
`$`-prefixed names in its output — see the counterexample.) -/
theorem c8_amended :
    (∀ (R : RealFns) (base : HSL) (pal : List (Str × PVal)) (res : List (Str × HSL)),
        generate_palette R base pal = .ok res →
        ∀ kv ∈ res, startsDollar kv.1 = false) ∧
    (∀ (A : CompileArgs) (parsed : List (Str × PVal)) (st : CState),
        (∀ kv ∈ A.predefined_colors, startsDollar kv.1 = false) →
        compileCore A parsed = .ok st →
        ∀ kv ∈ st.generated, startsDollar kv.1 = false) ∧
    (∀ (R : RealFns) (base : HSL) (key t : Str) (d : List (Str × DVal))
        (c c' : HSL) (rest : List (Str × PVal)) (links : List (Str × Str))
        (gen : List (Str × HSL)),
        alookup (chars "link") d = some (.s t) →
        alookup t gen = some c →
        generate_color R c (.dict d) = .ok c' →
        gp_pass1 R base ((key, .dict d) :: rest) links gen =
          gp_pass1 R base rest links (insertPy key c' gen)) ∧
    (∀ (key v t : Str) (rest : List (Str × Str)) (gen : List (Str × HSL)) (c : HSL),
        lstripSet (chars "link::") v = t →
        alookup t gen = some c →
        gp_pass2 ((key, v) :: rest) gen = gp_pass2 rest (insertPy key c gen)) := by
  refine ⟨?part1, ?part2, ?part3, ?part4⟩
  case part1 =>
    intro R base pal res h
    unfold generate_palette at h
    obtain ⟨lg, h1, h⟩ := except_bind_ok h
    obtain ⟨gen, h2, h⟩ := except_bind_ok h
    have h' : Except.ok (gp_filter gen) = .ok res := h
    cases h'
    intro kv hkv
    unfold gp_filter at hkv
    exact gp_filter_go_clean gen [] (by simp) kv hkv
  case part2 =>
    intro A parsed st hpre h
    unfold compileCore at h
    obtain ⟨st1, hce, h⟩ := except_bind_ok h
    have h' : Except.ok
        { st1 with generated := compileLinks A st1.links st1.generated } = .ok st := h
    cases h'
    obtain ⟨hg1, hl1⟩ := compileEntries_clean A parsed parsed
      ⟨A.predefined_colors, [], []⟩ st1 hpre (by simp) hce
    intro kv hkv
    exact compileLinks_clean A st1.links st1.generated hg1 hl1 kv hkv
  case part3 =>
    intro R base key t d c c' rest links gen h1 h2 h3
    simp only [gp_pass1, h1, h2, h3]
    rfl
  case part4 =>
    intro key v t rest gen c h1 h2
    simp only [gp_pass2, h1, h2]

theorem c8_amended_witness :
    (∀ kv ∈ ([] : List (Str × HSL)), startsDollar kv.1 = false) ∧
    (∀ kv ∈ (CState.mk cssArgs.predefined_colors [] []).generated,
        startsDollar kv.1 = false) ∧
    gp_pass1 R0 ⟨0, 0, 0⟩
        [(chars "b", .dict [(chars "link", .s (chars "$a"))])] []
        [(chars "$a", ⟨0, 0, 100⟩)] =
      gp_pass1 R0 ⟨0, 0, 0⟩ [] []
        (insertPy (chars "b") ⟨0, 0, 100⟩ [(chars "$a", ⟨0, 0, 100⟩)]) ∧
    gp_pass2 [(chars "x", chars "link::$a")] [(chars "$a", ⟨0, 0, 100⟩)] =
      gp_pass2 [] (insertPy (chars "x") ⟨0, 0, 100⟩ [(chars "$a", ⟨0, 0, 100⟩)]) :=
  ⟨c8_amended.1 R0 ⟨0, 0, 0⟩ [(chars "$a", .dict [])] [] (by decide),
   c8_amended.2.1 cssArgs [] ⟨cssArgs.predefined_colors, [], []⟩
     (by decide) (by decide),
   c8_amended.2.2.1 R0 ⟨0, 0, 0⟩ (chars "b") (chars "$a")
     [(chars "link", .s (chars "$a"))] ⟨0, 0, 100⟩ ⟨0, 0, 100⟩ [] []
     [(chars "$a", ⟨0, 0, 100⟩)] (by decide) (by decide) (by decide),
   c8_amended.2.2.2 (chars "x") (chars "link::$a") (chars "$a") []
     [(chars "$a", ⟨0, 0, 100⟩)] ⟨0, 0, 100⟩ (by decide) (by decide)⟩

/-- Claim C5 (amended): processing a statement whose (stripped) name is
already bound in the accumulated document does not raise any error on
account of the duplicate: the statement succeeds exactly when its value
classifies, and the new value silently replaces the old binding. -/
theorem c5_amended (parsed parsed' : List (Str × PVal)) (line var value : Str)
    (hsplit : splitOnceChar ':' line = some (var, value))
    (_hdup : (alookup (pyStrip var) parsed).isSome = true)
    (hok : parse_line parsed line = .ok parsed') :
    ∃ v, classify_value parsed value = .ok v ∧
      parsed' = insertPy (pyStrip var) v parsed ∧
      alookup (pyStrip var) parsed' = some v := by
  unfold parse_line at hok
  rw [hsplit] at hok
  have hok' : (do
      let v ← classify_value parsed value
      Except.ok (insertPy (pyStrip var) v parsed)) = Except.ok parsed' := hok
  cases hcv : classify_value parsed value with
  | error e =>
    rw [hcv] at hok'
    exact Except.noConfusion
      (show (Except.error e : Except String (List (Str × PVal))) = .ok parsed' from hok')
  | ok v =>
    rw [hcv] at hok'
    have h2 : Except.ok (insertPy (pyStrip var) v parsed) = Except.ok parsed' := hok'
    cases h2
    exact ⟨v, rfl, rfl, alookup_insertPy_self _ _ _⟩

theorem c5_amended_witness :
    ∃ v, classify_value [(chars "a", .str (chars "color::red"))] (chars "blue") = .ok v ∧
      [(chars "a", .str (chars "color::blue"))] =
        insertPy (pyStrip (chars "a")) v [(chars "a", .str (chars "color::red"))] ∧
      alookup (pyStrip (chars "a"))
        [(chars "a", .str (chars "color::blue"))] = some v :=
  c5_amended [(chars "a", .str (chars "color::red"))]
    [(chars "a", .str (chars "color::blue"))]
    (chars "a:blue") (chars "a") (chars "blue")
    (by decide) (by decide) (by decide)
